import Mathlib

/-!
Shallow embedding of the tool-call dispatch and request-validation layer of
the mcp-google-workspace server (src/servers/sheets.rs, src/servers/drive.rs).

Modelling conventions:
* `serde_json::Value` is the inductive `Json` below; integers suffice for the
  numeric payloads the claims touch.
* `CallToolRequest.arguments` is `Option (List (String × Json))`, an
  association list standing for `Option<HashMap<String, Value>>` (the type the
  repository's own tests construct).  Rust's `HashMap` `Index` panics on a
  missing key, so indexing is modelled by `List.lookup` plus an explicit
  `panicked` outcome when the key is absent.
* Each tool handler is translated up to the single remote `.doit()` call: the
  outcome `remote tok call` records that the handler reached the remote call
  with access token `tok` and request `call`; `response` is a value returned
  without any remote call (a normalized error envelope); `handlerError` is an
  `Err` escaping the handler closure itself (it bypasses `handle_result`);
  `panicked` is a Rust panic.
-/

namespace McpGW

inductive Json where
  | null
  | bool (b : Bool)
  | num (n : Int)
  | str (s : String)
  | arr (items : List Json)
  | obj (fields : List (String × Json))

namespace Json

/-- `Value::get(key)`: field lookup on an object, `None` on any other shape. -/
def get : Json → String → Option Json
  | .obj fields, k => fields.lookup k
  | _, _ => none

/-- `Value::as_str()`. -/
def asStr : Json → Option String
  | .str s => some s
  | _ => none

/-- `Value::as_array()`. -/
def asArray : Json → Option (List Json)
  | .arr items => some items
  | _ => none

/-- `Value::as_u64()`: integers representable as `u64`. -/
def asU64 : Json → Option Nat
  | .num n => if 0 ≤ n ∧ n < (2 : Int) ^ 64 then some n.toNat else none
  | _ => none

/-- JSON string escaping as used by `serde_json::to_string`. -/
def escapeString (s : String) : String :=
  s.data.foldl
    (fun acc c =>
      if c = '"' then acc ++ "\\\""
      else if c = '\\' then acc ++ "\\\\"
      else acc ++ String.singleton c)
    ""

mutual

/-- `serde_json::to_string`. -/
def serialize : Json → String
  | .null => "null"
  | .bool true => "true"
  | .bool false => "false"
  | .num n => toString n
  | .str s => "\"" ++ escapeString s ++ "\""
  | .arr items => "[" ++ serializeList items ++ "]"
  | .obj fields => "\x7b" ++ serializeFields fields ++ "\x7d"

def serializeList : List Json → String
  | [] => ""
  | [j] => serialize j
  | j :: rest => serialize j ++ "," ++ serializeList rest

def serializeFields : List (String × Json) → String
  | [] => ""
  | [(k, v)] => "\"" ++ escapeString k ++ "\":" ++ serialize v
  | (k, v) :: rest =>
      "\"" ++ escapeString k ++ "\":" ++ serialize v ++ "," ++ serializeFields rest

end

end Json

/-- `async_mcp::types::ToolResponseContent` (only the `Text` variant is used). -/
inductive ToolResponseContent where
  | text (t : String)

/-- `async_mcp::types::CallToolResponse`. -/
structure CallToolResponse where
  content : List ToolResponseContent
  is_error : Option Bool
  meta : Option Json

/-- `async_mcp::types::CallToolRequest`: `arguments: Option<HashMap<String, Value>>`,
`meta: Option<Value>`. -/
structure CallToolRequest where
  name : String
  arguments : Option (List (String × Json))
  meta : Option Json

/-- The error-branch envelope built by `handle_result` in both servers:
`text = format!("Error: \x7b\x7d", e)`, `is_error = Some(true)`. -/
def errorEnvelope (e : String) : CallToolResponse :=
  { content := [.text ("Error: " ++ e)], is_error := some true, meta := none }

/-- The success envelope built by every handler before `handle_result`:
the payload serialized to a JSON string, wrapped as the single text content
block, `is_error = None`. -/
def successEnvelope (payload : Json) : CallToolResponse :=
  { content := [.text payload.serialize], is_error := none, meta := none }

/-- `handle_result` (identical in sheets.rs and drive.rs): `Ok` passes through,
`Err e` becomes `Ok` of the error envelope.  It never returns `Err`. -/
def handle_result : Except String CallToolResponse → Except String CallToolResponse
  | .ok response => .ok response
  | .error e => .ok (errorEnvelope e)

/-- `get_access_token` (sheets.rs lines 15–21):
`req.meta.as_ref().and_then(get "access_token").and_then(as_str)`,
error `"Missing or invalid access_token"` when absent or not a string. -/
def get_access_token (req : CallToolRequest) : Except String String :=
  match (req.meta.bind (fun v => v.get "access_token")).bind Json.asStr with
  | some s => .ok s
  | none => .error "Missing or invalid access_token"

/-- The single remote API call a handler issues (the argument of `.doit()`). -/
inductive RemoteCall where
  | valuesGet (spreadsheetId range majorDimension : String)
  | valuesUpdate (spreadsheetId range : String) (values : List (List String))
      (majorDimension valueInputOption : String)
  | spreadsheetCreate (title : String) (sheetTitles : Option (List String))
  | valuesClear (spreadsheetId range : String)
  | spreadsheetGet (spreadsheetId : String)
  | filesList (q : String) (pageSize : Int) (orderBy : String)

/-- Outcome of running a tool handler up to its remote call. -/
inductive HandlerOutcome where
  | remote (accessToken : String) (call : RemoteCall)
  | response (resp : CallToolResponse)
  | handlerError (msg : String)
  | panicked (msg : String)

namespace HandlerOutcome

/-- Did the handler return a (possibly error-carrying) normalized response? -/
def isResponse : HandlerOutcome → Bool
  | .response _ => true
  | _ => false

/-- Did the handler reach its remote call? -/
def isRemote : HandlerOutcome → Bool
  | .remote _ _ => true
  | _ => false

/-- The access token handed to the remote client, when a remote call is made. -/
def tokenUsed : HandlerOutcome → Option String
  | .remote tok _ => some tok
  | _ => none

end HandlerOutcome

/-- The `read_values` handler (sheets.rs lines 129–171), translated up to
`values_get(...).doit()`.  `args["sheet"]` and `args["range"]` are `HashMap`
indexing and panic when the key is absent. -/
def read_values_handler (req : CallToolRequest) : HandlerOutcome :=
  match get_access_token req with
  | .error e => .handlerError e
  | .ok access_token =>
    let args := req.arguments.getD []
    let context := req.meta.getD Json.null
    match (context.get "spreadsheet_id").bind Json.asStr with
    | none => .response (errorEnvelope "spreadsheet_id required in context")
    | some spreadsheet_id =>
      match args.lookup "sheet" with
      | none => .panicked "no entry found for key"
      | some sheetVal =>
        match sheetVal.asStr with
        | none => .response (errorEnvelope "sheet name required")
        | some sheet =>
          match args.lookup "range" with
          | none => .panicked "no entry found for key"
          | some rangeVal =>
            let user_range := (rangeVal.asStr).getD "A1:ZZ"
            let range := sheet ++ "!" ++ user_range
            let major_dimension :=
              (((args.lookup "major_dimension").bind Json.asStr)).getD "ROWS"
            .remote access_token (.valuesGet spreadsheet_id range major_dimension)

/-- Row coercion inside the `write_values` handler (sheets.rs lines 205–211):
`row.as_array().unwrap_or(&vec![])` then each cell
`v.as_str().unwrap_or_default().to_string()`. -/
def coerce_row (row : Json) : List String :=
  ((row.asArray).getD []).map (fun v => (v.asStr).getD "")

/-- The `values` coercion of the `write_values` handler (sheets.rs lines 202–213). -/
def coerce_values (values : List Json) : List (List String) :=
  values.map coerce_row

/-- The `write_values` handler (sheets.rs lines 173–234), translated up to
`values_update(...).value_input_option("RAW").doit()`.  `args["sheet"]` and
`args["range"]` are `HashMap` indexing and panic when the key is absent. -/
def write_values_handler (req : CallToolRequest) : HandlerOutcome :=
  match get_access_token req with
  | .error e => .handlerError e
  | .ok access_token =>
    let args := req.arguments.getD []
    let context := req.meta.getD Json.null
    match (context.get "spreadsheet_id").bind Json.asStr with
    | none => .response (errorEnvelope "spreadsheet_id required in context")
    | some spreadsheet_id =>
      match args.lookup "sheet" with
      | none => .panicked "no entry found for key"
      | some sheetVal =>
        match sheetVal.asStr with
        | none => .response (errorEnvelope "sheet name required")
        | some sheet =>
          match args.lookup "range" with
          | none => .panicked "no entry found for key"
          | some rangeVal =>
            match rangeVal.asStr with
            | none => .response (errorEnvelope "range is required")
            | some user_range =>
              let range := sheet ++ "!" ++ user_range
              match ((args.lookup "values").bind Json.asArray) with
              | none => .response (errorEnvelope "values required")
              | some values =>
                let major_dimension :=
                  ((args.lookup "major_dimension").bind Json.asStr).getD "ROWS"
                .remote access_token
                  (.valuesUpdate spreadsheet_id range (coerce_values values)
                    major_dimension "RAW")

/-- The `create_spreadsheet` handler (sheets.rs lines 236–283), translated up
to `spreadsheets().create(spreadsheet).doit()`.  `args["title"]` and
`args["sheets"]` are `HashMap` indexing and panic when the key is absent;
each element of `sheets` is a `Value`, so `config["title"]` is `Value`
indexing (no panic: null when missing). -/
def create_spreadsheet_handler (req : CallToolRequest) : HandlerOutcome :=
  match get_access_token req with
  | .error e => .handlerError e
  | .ok access_token =>
    let args := req.arguments.getD []
    match args.lookup "title" with
    | none => .panicked "no entry found for key"
    | some titleVal =>
      match titleVal.asStr with
      | none => .response (errorEnvelope "title required")
      | some title =>
        match args.lookup "sheets" with
        | none => .panicked "no entry found for key"
        | some sheetsVal =>
          let sheetTitles :=
            match sheetsVal.asArray with
            | some sheet_configs =>
                some (sheet_configs.map
                  (fun config => (((config.get "title").bind Json.asStr)).getD "Sheet1"))
            | none => none
          .remote access_token (.spreadsheetCreate title sheetTitles)

/-- The `clear_values` handler (sheets.rs lines 285–328), translated up to
`values_clear(...).doit()`.  `sheet` and `range` use `args.get` (no panic)
with defaults `"Sheet1"` and `"A1:ZZ"`. -/
def clear_values_handler (req : CallToolRequest) : HandlerOutcome :=
  match get_access_token req with
  | .error e => .handlerError e
  | .ok access_token =>
    let args := req.arguments.getD []
    let context := req.meta.getD Json.null
    match (context.get "spreadsheet_id").bind Json.asStr with
    | none => .response (errorEnvelope "spreadsheet_id required in context")
    | some spreadsheet_id =>
      let sheet := ((args.lookup "sheet").bind Json.asStr).getD "Sheet1"
      let user_range := ((args.lookup "range").bind Json.asStr).getD "A1:ZZ"
      let range := sheet ++ "!" ++ user_range
      .remote access_token (.valuesClear spreadsheet_id range)

/-- The `get_sheet_info` handler (sheets.rs lines 330–381), translated up to
`spreadsheets().get(spreadsheet_id).doit()`; the post-processing of the
fetched spreadsheet is `computeSheetInfo` below. -/
def get_sheet_info_handler (req : CallToolRequest) : HandlerOutcome :=
  match get_access_token req with
  | .error e => .handlerError e
  | .ok access_token =>
    let context := req.meta.getD Json.null
    match (context.get "spreadsheet_id").bind Json.asStr with
    | none => .response (errorEnvelope "spreadsheet_id required in context")
    | some spreadsheet_id =>
      .remote access_token (.spreadsheetGet spreadsheet_id)

/-- `google_sheets4::api::GridProperties` (the fields the handler reads). -/
structure GridProperties where
  column_count : Option Int
  row_count : Option Int

/-- `google_sheets4::api::SheetProperties` (the fields the handler reads). -/
structure SheetProperties where
  title : Option String
  grid_properties : Option GridProperties

/-- `google_sheets4::api::Sheet` (the fields the handler reads). -/
structure Sheet where
  properties : Option SheetProperties

/-- Rust `as u8` on an `i32`: truncation to the low 8 bits. -/
def toU8 (n : Int) : Nat := (n % 256).toNat

/-- One entry of the `get_sheet_info` post-processing (sheets.rs lines
352–366): skip the sheet unless properties, title and grid properties are all
present; `max_col = column_count.unwrap_or(26) as u8`,
`max_row = row_count.unwrap_or(1000)`,
`max_range = format!("A1:\x7b\x7d\x7b\x7d", (b'A' + max_col - 1) as char, max_row)`
(the `u8` arithmetic modelled with wraparound). -/
def sheet_entry (sheet : Sheet) : Option Json :=
  match sheet.properties with
  | none => none
  | some props =>
    match props.title with
    | none => none
    | some title =>
      match props.grid_properties with
      | none => none
      | some grid_props =>
        let max_col := toU8 (grid_props.column_count.getD 26)
        let max_row := grid_props.row_count.getD 1000
        let max_range :=
          "A1:" ++ String.singleton (Char.ofNat ((65 + max_col - 1) % 256))
            ++ toString max_row
        some (.obj [("title", .str title), ("maxRange", .str max_range)])

/-- The `filter_map` over the fetched spreadsheet's sheets (sheets.rs lines
348–367). -/
def computeSheetInfo (sheets : List Sheet) : List Json :=
  sheets.filterMap sheet_entry

/-- `DriveServer` (drive.rs lines 18–35): the access token is bound once at
construction (`get_drive_client(access_token)` stored behind the mutex). -/
structure DriveServer where
  access_token : String

/-- The query construction of the `list_files` handler (drive.rs lines 82–85):
`mimeType='<value>'` with the value interpolated verbatim, empty when no
string-valued `mime_type` argument. -/
def list_files_query (args : List (String × Json)) : String :=
  match (args.lookup "mime_type").bind Json.asStr with
  | some mime_type => "mimeType='" ++ mime_type ++ "'"
  | none => ""

/-- Rust `as i32` on a `u64`: truncation to 32 bits, two's complement. -/
def toI32 (n : Nat) : Int :=
  let m : Nat := n % 2 ^ 32
  if m < 2 ^ 31 then (m : Int) else (m : Int) - 2 ^ 32

/-- `page_size` resolution of the `list_files` handler (drive.rs lines 91–93). -/
def list_files_page_size (args : List (String × Json)) : Int :=
  toI32 (((args.lookup "page_size").bind Json.asU64).getD 10)

/-- `order_by` resolution of the `list_files` handler (drive.rs lines 94–98). -/
def list_files_order_by (args : List (String × Json)) : String :=
  ((args.lookup "order_by").bind Json.asStr).getD "modifiedTime desc"

/-- The `list_files` handler (drive.rs lines 61–115), translated up to
`files().list()...doit()`.  It reads only `req.arguments`; the access token
is the one bound at `DriveServer` construction. -/
def drive_list_files_handler (srv : DriveServer) (req : CallToolRequest) :
    HandlerOutcome :=
  let args := req.arguments.getD []
  .remote srv.access_token
    (.filesList (list_files_query args) (list_files_page_size args)
      (list_files_order_by args))

/-! ## Claim theorems -/

/-- Claim C1, counterexample: a `read_values` invocation whose meta carries a
`spreadsheet_id` but no `access_token` does not produce a normalized
`is_error=true` response envelope — the failure escapes the handler closure
itself (`get_access_token(&req)?` sits outside the block fed to
`handle_result`). -/
theorem C1_counterexample :
    get_access_token
        ⟨"read_values", some [("sheet", .str "Sheet1"), ("range", .str "A1")],
          some (.obj [("spreadsheet_id", .str "sid")])⟩
      = .error "Missing or invalid access_token" ∧
    (read_values_handler
        ⟨"read_values", some [("sheet", .str "Sheet1"), ("range", .str "A1")],
          some (.obj [("spreadsheet_id", .str "sid")])⟩).isResponse
      = false :=
  ⟨rfl, rfl⟩

/-- Claim C1 (amended): for every sheets tool invocation whose meta lacks a
string-valued `access_token`, every handler fails with reason
`"Missing or invalid access_token"` and no remote call is attempted; the
failure propagates out of the per-tool handler as a handler-level error
rather than through the Result Normalizer. -/
theorem C1_missing_token_fails_before_remote (req : CallToolRequest)
    (h : (req.meta.bind (fun v => v.get "access_token")).bind Json.asStr = none) :
    read_values_handler req = .handlerError "Missing or invalid access_token" ∧
    write_values_handler req = .handlerError "Missing or invalid access_token" ∧
    create_spreadsheet_handler req = .handlerError "Missing or invalid access_token" ∧
    clear_values_handler req = .handlerError "Missing or invalid access_token" ∧
    get_sheet_info_handler req = .handlerError "Missing or invalid access_token" ∧
    (read_values_handler req).isRemote = false ∧
    (write_values_handler req).isRemote = false ∧
    (create_spreadsheet_handler req).isRemote = false ∧
    (clear_values_handler req).isRemote = false ∧
    (get_sheet_info_handler req).isRemote = false := by
  have htok : get_access_token req = .error "Missing or invalid access_token" := by
    simp [get_access_token, h]
  refine ⟨?_, ?_, ?_, ?_, ?_, ?_, ?_, ?_, ?_, ?_⟩ <;>
    simp [read_values_handler, write_values_handler, create_spreadsheet_handler,
      clear_values_handler, get_sheet_info_handler, htok, HandlerOutcome.isRemote]

/-- Witness for C1: a concrete invocation with no `access_token` in meta. -/
theorem C1_missing_token_fails_before_remote_witness :
    read_values_handler
        ⟨"read_values", some [], some (.obj [("spreadsheet_id", .str "sid")])⟩
      = .handlerError "Missing or invalid access_token" :=
  (C1_missing_token_fails_before_remote
    ⟨"read_values", some [], some (.obj [("spreadsheet_id", .str "sid")])⟩ rfl).1

/-- Claim C2: omitting the required `sheet` argument of `read_values`, or the
required `range` argument of `write_values`, does not yield a
`MissingParameter`-style normalized error — the `HashMap` indexing
`args["sheet"]` / `args["range"]` panics on the absent key. -/
theorem C2_missing_required_param_panics :
    read_values_handler
        ⟨"read_values", some [],
          some (.obj [("access_token", .str "tok"), ("spreadsheet_id", .str "sid")])⟩
      = .panicked "no entry found for key" ∧
    write_values_handler
        ⟨"write_values",
          some [("sheet", .str "Sheet1"), ("values", .arr [.arr [.str "5"]])],
          some (.obj [("access_token", .str "tok"), ("spreadsheet_id", .str "sid")])⟩
      = .panicked "no entry found for key" :=
  ⟨rfl, rfl⟩

/-- Claim C3: a `create_spreadsheet` invocation that supplies the required
`title` but omits the optional `sheets` argument panics at the `HashMap`
indexing `args["sheets"]` instead of proceeding to the remote create call. -/
theorem C3_create_without_sheets_panics :
    create_spreadsheet_handler
        ⟨"create_spreadsheet", some [("title", .str "My Doc")],
          some (.obj [("access_token", .str "tok")])⟩
      = .panicked "no entry found for key" ∧
    create_spreadsheet_handler
        ⟨"create_spreadsheet",
          some [("title", .str "My Doc"), ("sheets", .arr [.obj [("title", .str "Tab")]])],
          some (.obj [("access_token", .str "tok")])⟩
      = .remote "tok" (.spreadsheetCreate "My Doc" (some ["Tab"])) :=
  ⟨rfl, rfl⟩

/-- Claim C4: the `read_values` handler never consults the context/meta
mapping for `range`: with `range` absent from arguments it panics (even when
meta holds `range="B2"`), and with a non-string `range` argument it applies
the default `"A1:ZZ"` instead of the meta value. -/
theorem C4_meta_range_ignored :
    read_values_handler
        ⟨"read_values", some [("sheet", .str "Sheet1")],
          some (.obj [("access_token", .str "tok"), ("spreadsheet_id", .str "sid"),
            ("range", .str "B2")])⟩
      = .panicked "no entry found for key" ∧
    read_values_handler
        ⟨"read_values", some [("sheet", .str "Sheet1"), ("range", .num 5)],
          some (.obj [("access_token", .str "tok"), ("spreadsheet_id", .str "sid"),
            ("range", .str "B2")])⟩
      = .remote "tok" (.valuesGet "sid" "Sheet1!A1:ZZ" "ROWS") :=
  ⟨rfl, rfl⟩

/-- Claim C5: a `read_values` invocation with `sheet="Sheet6"` and no `range`
argument panics at `args["range"]` instead of defaulting to
`"Sheet6!A1:ZZ"`; the `write_values` half of the claim does hold: with
`values=[["5"]]`, `range="A1"`, `sheet="Sheet1"` the remote call targets
`"Sheet1!A1"` with input mode `"RAW"`. -/
theorem C5_default_range_panics_write_half_holds :
    read_values_handler
        ⟨"read_values", some [("sheet", .str "Sheet6")],
          some (.obj [("access_token", .str "tok"), ("spreadsheet_id", .str "sid")])⟩
      = .panicked "no entry found for key" ∧
    write_values_handler
        ⟨"write_values",
          some [("values", .arr [.arr [.str "5"]]), ("range", .str "A1"),
            ("sheet", .str "Sheet1")],
          some (.obj [("access_token", .str "tok"), ("spreadsheet_id", .str "sid")])⟩
      = .remote "tok" (.valuesUpdate "sid" "Sheet1!A1" [["5"]] "ROWS" "RAW") :=
  ⟨rfl, rfl⟩

/-- Claim C6: the Result Normalizer `handle_result` is total: a success passes
through as the JSON-serialized payload wrapped as the single text block with
`is_error` absent; any failure becomes the error's display message as the
single text block with `is_error = true`; no input produces an `Err`
(protocol-level fault). -/
theorem C6_handle_result_total_normalizer :
    (∀ payload : Json,
      handle_result (.ok (successEnvelope payload)) =
        .ok { content := [.text payload.serialize], is_error := none, meta := none }) ∧
    (∀ e : String,
      handle_result (.error e) =
        .ok { content := [.text ("Error: " ++ e)], is_error := some true, meta := none }) ∧
    (∀ result : Except String CallToolResponse,
      ∃ resp, handle_result result = .ok resp) :=
  ⟨fun _ => rfl, fun _ => rfl,
    fun result => match result with
      | .ok resp => ⟨resp, rfl⟩
      | .error e => ⟨errorEnvelope e, rfl⟩⟩

/-- Claim C7: for any spreadsheet whose first sheet has `column_count=4`,
`row_count=100`, `title="Data"`, the `get_sheet_info` post-processing reports
the entry `title="Data"`, `maxRange="A1:D100"` for that sheet (letter
computed as the character at `'A' + 4 - 1 = 'D'`). -/
theorem C7_sheet_info_maxRange (rest : List Sheet) :
    computeSheetInfo (⟨some ⟨some "Data", some ⟨some 4, some 100⟩⟩⟩ :: rest) =
      Json.obj [("title", .str "Data"), ("maxRange", .str "A1:D100")]
        :: computeSheetInfo rest :=
  rfl

/-- Claim C8: in the `write_values` handler, a row of `values` that is not a
JSON array is coerced to an empty row and a cell that is not a JSON string is
coerced to the empty string; a concrete invocation with both malformations
still reaches the remote call (no panic, no error). -/
theorem C8_malformed_values_coerced :
    (∀ row : Json, row.asArray = none → coerce_row row = []) ∧
    (∀ v : Json, v.asStr = none → coerce_row (.arr [v]) = [""]) ∧
    write_values_handler
        ⟨"write_values",
          some [("values", .arr [.arr [.num 7, .str "x"], .str "notarow"]),
            ("range", .str "A1:B2"), ("sheet", .str "Sheet1")],
          some (.obj [("access_token", .str "tok"), ("spreadsheet_id", .str "sid")])⟩
      = .remote "tok"
          (.valuesUpdate "sid" "Sheet1!A1:B2" [["", "x"], []] "ROWS" "RAW") := by
  refine ⟨?_, ?_, rfl⟩
  · intro row h
    simp [coerce_row, h]
  · intro v h
    simp [coerce_row, Json.asArray, h]

/-- Witness for C8: a non-array row and a non-string cell, both numeric. -/
theorem C8_malformed_values_coerced_witness :
    coerce_row (.num 3) = [] ∧ coerce_row (.arr [.num 3]) = [""] :=
  ⟨C8_malformed_values_coerced.1 (.num 3) rfl,
    C8_malformed_values_coerced.2.1 (.num 3) rfl⟩

/-- Claim C9: the `list_files` handler builds the query `mimeType='<value>'`
with the supplied MIME type interpolated verbatim, an empty query when
`mime_type` is absent, `page_size` defaulting to 10 and `order_by` defaulting
to `"modifiedTime desc"`, and passes exactly these to the remote call. -/
theorem C9_list_files_query_and_defaults (args : List (String × Json))
    (srv : DriveServer) (nm : String) (meta : Option Json) :
    (∀ s : String, args.lookup "mime_type" = some (.str s) →
      list_files_query args = "mimeType='" ++ s ++ "'") ∧
    (args.lookup "mime_type" = none → list_files_query args = "") ∧
    (args.lookup "page_size" = none → list_files_page_size args = 10) ∧
    (args.lookup "order_by" = none → list_files_order_by args = "modifiedTime desc") ∧
    drive_list_files_handler srv ⟨nm, some args, meta⟩ =
      .remote srv.access_token
        (.filesList (list_files_query args) (list_files_page_size args)
          (list_files_order_by args)) := by
  refine ⟨?_, ?_, ?_, ?_, rfl⟩
  · intro s h
    simp [list_files_query, h, Json.asStr]
  · intro h
    simp [list_files_query, h]
  · intro h
    simp [list_files_page_size, h, toI32]
  · intro h
    simp [list_files_order_by, h]

/-- Witness for C9: a MIME type containing an embedded quote is interpolated
verbatim, and absent `page_size` / `order_by` / `mime_type` take the
documented defaults. -/
theorem C9_list_files_query_and_defaults_witness :
    list_files_query [("mime_type", .str "a'b")] = "mimeType='a'b'" ∧
    list_files_query [] = "" ∧
    list_files_page_size [] = 10 ∧
    list_files_order_by [] = "modifiedTime desc" :=
  ⟨(C9_list_files_query_and_defaults [("mime_type", .str "a'b")] ⟨"t"⟩ "n" none).1
      "a'b" rfl,
    (C9_list_files_query_and_defaults [] ⟨"t"⟩ "n" none).2.1 rfl,
    (C9_list_files_query_and_defaults [] ⟨"t"⟩ "n" none).2.2.1 rfl,
    (C9_list_files_query_and_defaults [] ⟨"t"⟩ "n" none).2.2.2.1 rfl⟩

/-- Claim C10: the Drive `list_files` handler never reads the request's meta:
two invocations with equal arguments produce identical remote requests, and
the access token used is always the one bound at `DriveServer` construction. -/
theorem C10_drive_meta_independent (srv : DriveServer)
    (r1 r2 : CallToolRequest) (h : r1.arguments = r2.arguments) :
    drive_list_files_handler srv r1 = drive_list_files_handler srv r2 ∧
    (drive_list_files_handler srv r1).tokenUsed = some srv.access_token := by
  constructor
  · simp [drive_list_files_handler, h]
  · simp [drive_list_files_handler, HandlerOutcome.tokenUsed]

/-- Witness for C10: same arguments, different meta (one of them smuggling a
different `access_token`): identical handler outcome, construction token used. -/
theorem C10_drive_meta_independent_witness :
    drive_list_files_handler ⟨"ctor-token"⟩
        ⟨"list_files", some [("page_size", .num 5)], none⟩ =
      drive_list_files_handler ⟨"ctor-token"⟩
        ⟨"list_files", some [("page_size", .num 5)],
          some (.obj [("access_token", .str "other")])⟩ ∧
    (drive_list_files_handler ⟨"ctor-token"⟩
        ⟨"list_files", some [("page_size", .num 5)], none⟩).tokenUsed
      = some "ctor-token" :=
  C10_drive_meta_independent ⟨"ctor-token"⟩
    ⟨"list_files", some [("page_size", .num 5)], none⟩
    ⟨"list_files", some [("page_size", .num 5)],
      some (.obj [("access_token", .str "other")])⟩ rfl

end McpGW
